import Mathlib

/-!
Shallow embedding of the evalanche SDK's key-lifecycle and cross-ledger
settlement core, together with theorems checking the natural-language
specification against it.

The embedding follows the TypeScript sources:
  * `src/utils/errors.ts`        — `EvalancheError`, `EvalancheErrorCode`
  * `src/avalanche/signer.ts`    — `XChainOperations` (balance, exportTo, importFrom)
  * `src/utils/networks.ts`      — `PChainOperations` (balance, exportTo, importFrom)
  * `src/avalanche/crosschain.ts`— `CrossChainTransfer` (transfer, exportFromC,
                                   importToC, waitForConfirmation)
  * `src/wallet/keystore.ts`     — `AgentKeystore` (init, load, getPassword, save)
  * the `Evalanche` agent class  — `initMultiVM`, `transfer` (AVAX → nAVAX conversion)

Network and filesystem effects are modelled by explicit environments: each
awaited primitive's outcome (a value, or a thrown JavaScript error) is a field
of an environment record, and the functions are direct transcriptions of the
source control flow over those outcomes.  Invocation order of the network
primitives is captured by a trace of events returned alongside the result.
-/

/-- The three chain aliases `'C' | 'X' | 'P'` (`src/avalanche/types.ts`). -/
inductive ChainAlias
  | C
  | X
  | P
deriving DecidableEq, Repr

/-- String form of a chain alias, as used in template-literal messages. -/
def ChainAlias.str : ChainAlias → String
  | .C => "C"
  | .X => "X"
  | .P => "P"

/-- Error codes from `src/utils/errors.ts` (`EvalancheErrorCode`). -/
inductive EvalancheErrorCode
  | INVALID_CONFIG
  | WALLET_ERROR
  | NETWORK_ERROR
  | IDENTITY_NOT_FOUND
  | IDENTITY_RESOLUTION_FAILED
  | TRANSACTION_FAILED
  | INSUFFICIENT_FUNDS
  | CONTRACT_CALL_FAILED
  | X402_PAYMENT_FAILED
  | X402_PAYMENT_EXCEEDED
  | REPUTATION_SUBMIT_FAILED
  | XCHAIN_ERROR
  | PCHAIN_ERROR
  | CROSS_CHAIN_ERROR
  | STAKING_ERROR
  | UTXO_ERROR
deriving DecidableEq, Repr

/-- A thrown JavaScript `Error` value: either a plain `Error` with a message,
or an `EvalancheError` with a message, a code and an optional `cause`
(`src/utils/errors.ts`). -/
inductive JsError
  | plain (message : String)
  | evalanche (message : String) (code : EvalancheErrorCode) (cause : Option JsError)

/-- The typed `EvalancheError` class (`src/utils/errors.ts`): message, code,
optional cause. -/
structure EvalancheError where
  message : String
  code : EvalancheErrorCode
  cause : Option JsError

/-- View a typed `EvalancheError` as a thrown JavaScript error. -/
def EvalancheError.toJs (e : EvalancheError) : JsError :=
  .evalanche e.message e.code e.cause

/-- `error instanceof EvalancheError` as a partial projection. -/
def JsError.asEvalanche? : JsError → Option EvalancheError
  | .plain _ => none
  | .evalanche m c cause => some ⟨m, c, cause⟩

/-- An unspent output as seen through the wallet SDK: an asset identifier and,
when the output type carries one (`'amount' in utxo.output`), an amount in
nAVAX. -/
structure UTXO where
  assetId : String
  amount : Option Nat
deriving DecidableEq, Repr

/-- Unsigned transactions constructed by the signer
(`signer.exportX/importX/exportP/importP/exportC/importC`).  Signing is
abstracted away: the signed transaction submitted to the network is identified
with the unsigned transaction it was built from. -/
inductive UnsignedTx
  | exportX (amount : Nat) (utxos : List UTXO) (dest : ChainAlias)
  | importX (utxos : List UTXO) (source : ChainAlias)
  | exportP (amount : Nat) (utxos : List UTXO) (dest : ChainAlias)
  | importP (utxos : List UTXO) (source : ChainAlias)
  | exportC (amount : Nat) (dest : ChainAlias) (nonce : Nat) (baseFee : Nat)
  | importC (utxos : List UTXO) (source : ChainAlias) (baseFee : Nat)
deriving DecidableEq, Repr

/-- Environment fixing the outcome of every awaited network primitive used by
the ledger-operation modules and the orchestrator.  Each field corresponds to
one remote call: it either resolves with a value or rejects with a thrown
error. -/
structure Env where
  /-- The network's native asset id (`provider.getContext().avaxAssetID`). -/
  avaxAssetID : String
  /-- `signer.getUTXOs(chain)` — the full unspent-output set on a chain. -/
  getUTXOs : ChainAlias → Except JsError (List UTXO)
  /-- `signer.getAtomicUTXOs(chain, sourceChain)` — cross-chain-pending
  outputs on `chain` exported from `sourceChain`. -/
  getAtomicUTXOs : ChainAlias → ChainAlias → Except JsError (List UTXO)
  /-- `signer.signTx({tx})` — may reject. -/
  signTx : UnsignedTx → Except JsError Unit
  /-- `api.issueSignedTx(signedTx)` — resolves with `response.txID`. -/
  issueSignedTx : UnsignedTx → Except JsError String
  /-- `signer.getNonce()` on the C-chain account. -/
  getNonce : Except JsError Nat
  /-- `provider.evmRpc.getFeeData()` — resolves with an optional `gasPrice`
  (`null` modelled as `none`), or rejects. -/
  getFeeData : Except JsError (Option Nat)

/-- The balance loop of `XChainOperations.getBalance` / `PChainOperations.getBalance`:
`for (const utxo of utxoSet.getUTXOs()) if (utxo.getAssetId() === avaxAssetId
&& 'amount' in utxo.output) total += amount()`. -/
def sumAvaxAmounts (utxos : List UTXO) (avaxAssetId : String) : Nat :=
  utxos.foldl
    (fun total u =>
      if u.assetId = avaxAssetId then
        match u.amount with
        | some a => total + a
        | none => total
      else total)
    0

/-- `XChainOperations.getBalance` (`src/avalanche/signer.ts`). -/
def XChainOperations.getBalance (env : Env) : Except EvalancheError Nat :=
  match env.getUTXOs .X with
  | .ok utxoSet => .ok (sumAvaxAmounts utxoSet env.avaxAssetID)
  | .error e => .error ⟨"Failed to get X-Chain balance", .XCHAIN_ERROR, some e⟩

/-- `XChainOperations.exportTo` (`src/avalanche/signer.ts`). -/
def XChainOperations.exportTo (env : Env) (amount : Nat) (dest : ChainAlias) :
    Except EvalancheError String :=
  match (do
      let utxoSet ← env.getUTXOs .X
      let unsignedTx := UnsignedTx.exportX amount utxoSet dest
      let _ ← env.signTx unsignedTx
      env.issueSignedTx unsignedTx : Except JsError String) with
  | .ok txID => .ok txID
  | .error e =>
      .error ⟨"Failed to export from X-Chain to " ++ dest.str, .CROSS_CHAIN_ERROR, some e⟩

/-- `XChainOperations.importFrom` (`src/avalanche/signer.ts`). -/
def XChainOperations.importFrom (env : Env) (sourceChain : ChainAlias) :
    Except EvalancheError String :=
  match (do
      let atomicUtxos ← env.getAtomicUTXOs .X sourceChain
      if atomicUtxos.length = 0 then
        Except.error (JsError.plain "No atomic UTXOs available for import")
      else do
        let unsignedTx := UnsignedTx.importX atomicUtxos sourceChain
        let _ ← env.signTx unsignedTx
        env.issueSignedTx unsignedTx : Except JsError String) with
  | .ok txID => .ok txID
  | .error e =>
      .error ⟨"Failed to import to X-Chain from " ++ sourceChain.str, .CROSS_CHAIN_ERROR, some e⟩

/-- `PChainOperations.getBalance` (`src/utils/networks.ts`). -/
def PChainOperations.getBalance (env : Env) : Except EvalancheError Nat :=
  match env.getUTXOs .P with
  | .ok utxoSet => .ok (sumAvaxAmounts utxoSet env.avaxAssetID)
  | .error e => .error ⟨"Failed to get P-Chain balance", .PCHAIN_ERROR, some e⟩

/-- `PChainOperations.exportTo` (`src/utils/networks.ts`). -/
def PChainOperations.exportTo (env : Env) (amount : Nat) (dest : ChainAlias) :
    Except EvalancheError String :=
  match (do
      let utxoSet ← env.getUTXOs .P
      let unsignedTx := UnsignedTx.exportP amount utxoSet dest
      let _ ← env.signTx unsignedTx
      env.issueSignedTx unsignedTx : Except JsError String) with
  | .ok txID => .ok txID
  | .error e =>
      .error ⟨"Failed to export from P-Chain to " ++ dest.str, .CROSS_CHAIN_ERROR, some e⟩

/-- `PChainOperations.importFrom` (`src/utils/networks.ts`). -/
def PChainOperations.importFrom (env : Env) (sourceChain : ChainAlias) :
    Except EvalancheError String :=
  match (do
      let atomicUtxos ← env.getAtomicUTXOs .P sourceChain
      if atomicUtxos.length = 0 then
        Except.error (JsError.plain "No atomic UTXOs available for import")
      else do
        let unsignedTx := UnsignedTx.importP atomicUtxos sourceChain
        let _ ← env.signTx unsignedTx
        env.issueSignedTx unsignedTx : Except JsError String) with
  | .ok txID => .ok txID
  | .error e =>
      .error ⟨"Failed to import to P-Chain from " ++ sourceChain.str, .CROSS_CHAIN_ERROR, some e⟩

/-- `CrossChainTransfer.exportFromC` (`src/avalanche/crosschain.ts`): build the
EVM-format export transaction from the current nonce and the fee market's gas
price, falling back to `25_000_000_000` when `feeData.gasPrice` is `null`.
Has no try/catch of its own: thrown errors propagate to `transfer`. -/
def CrossChainTransfer.exportFromC (env : Env) (amount : Nat) (dest : ChainAlias) :
    Except JsError String := do
  let nonce ← env.getNonce
  let feeData ← env.getFeeData
  let baseFee := feeData.getD 25000000000
  let unsignedTx := UnsignedTx.exportC amount dest nonce baseFee
  let _ ← env.signTx unsignedTx
  env.issueSignedTx unsignedTx

/-- `CrossChainTransfer.importToC` (`src/avalanche/crosschain.ts`): consume the
atomic UTXOs pending on the C-chain from `sourceChain`; throws a plain error
when none exist.  No try/catch of its own. -/
def CrossChainTransfer.importToC (env : Env) (sourceChain : ChainAlias) :
    Except JsError String := do
  let atomicUtxos ← env.getAtomicUTXOs .C sourceChain
  if atomicUtxos.length = 0 then
    Except.error (JsError.plain "No atomic UTXOs available for C-Chain import")
  else do
    let feeData ← env.getFeeData
    let baseFee := feeData.getD 25000000000
    let unsignedTx := UnsignedTx.importC atomicUtxos sourceChain baseFee
    let _ ← env.signTx unsignedTx
    env.issueSignedTx unsignedTx

/-- `{ exportTxId, importTxId }` (`src/avalanche/types.ts`, `TransferResult`). -/
structure TransferResult where
  exportTxId : String
  importTxId : String
deriving DecidableEq, Repr

/-- Orchestrator-level events, recording which network primitives a `transfer`
call invokes and in what order. -/
inductive Event
  | exportCall (source dest : ChainAlias) (amount : Nat)
  | wait
  | importCall (dest source : ChainAlias)
deriving DecidableEq, Repr

/-- Lift a typed module error into a thrown JavaScript error. -/
def liftE {α : Type} : Except EvalancheError α → Except JsError α
  | .ok a => .ok a
  | .error e => .error e.toJs

/-- One `case` body of the `transfer` switch: run the export primitive; on
success run `waitForConfirmation` (a plain 3-second sleep, which always
resolves) and then the import primitive.  The trace records the invocation
order; the import primitive is not invoked when the export failed. -/
def legRun (doExport doImport : Except JsError String)
    (source dest : ChainAlias) (amount : Nat) :
    Except JsError TransferResult × List Event :=
  match doExport with
  | .error e => (.error e, [.exportCall source dest amount])
  | .ok exportTxId =>
      match doImport with
      | .error e =>
          (.error e, [.exportCall source dest amount, .wait, .importCall dest source])
      | .ok importTxId =>
          (.ok ⟨exportTxId, importTxId⟩,
            [.exportCall source dest amount, .wait, .importCall dest source])

/-- The catch clause of `CrossChainTransfer.transfer`: an `EvalancheError` is
rethrown unchanged, anything else is wrapped in a `CROSS_CHAIN_ERROR` whose
message names the direction and repeats the underlying message. -/
def wrapTransferError (source dest : ChainAlias) : JsError → EvalancheError
  | .evalanche m c cause => ⟨m, c, cause⟩
  | .plain m =>
      ⟨"Cross-chain transfer " ++ source.str ++ "→" ++ dest.str ++ " failed: " ++ m,
        .CROSS_CHAIN_ERROR, some (.plain m)⟩

/-- The `from === to` guard error of `CrossChainTransfer.transfer`; the spec's
`InvalidDirectionError`. -/
def InvalidDirectionError : EvalancheError :=
  ⟨"Source and destination chains must be different", .CROSS_CHAIN_ERROR, none⟩

/-- `CrossChainTransfer.transfer` (`src/avalanche/crosschain.ts`): guard on
equal chains, then switch on the direction pair, each case exporting, waiting
and importing; the whole switch wrapped in the try/catch `wrapTransferError`.
Returns the result together with the trace of invoked primitives. -/
def CrossChainTransfer.transfer (env : Env) (source dest : ChainAlias) (amount : Nat) :
    Except EvalancheError TransferResult × List Event :=
  if source = dest then
    (.error InvalidDirectionError, [])
  else
    let body : Except JsError TransferResult × List Event :=
      match source, dest with
      | .X, .P =>
          legRun (liftE (XChainOperations.exportTo env amount .P))
            (liftE (PChainOperations.importFrom env .X)) .X .P amount
      | .X, .C =>
          legRun (liftE (XChainOperations.exportTo env amount .C))
            (CrossChainTransfer.importToC env .X) .X .C amount
      | .P, .X =>
          legRun (liftE (PChainOperations.exportTo env amount .X))
            (liftE (XChainOperations.importFrom env .P)) .P .X amount
      | .P, .C =>
          legRun (liftE (PChainOperations.exportTo env amount .C))
            (CrossChainTransfer.importToC env .P) .P .C amount
      | .C, .X =>
          legRun (CrossChainTransfer.exportFromC env amount .X)
            (liftE (XChainOperations.importFrom env .C)) .C .X amount
      | .C, .P =>
          legRun (CrossChainTransfer.exportFromC env amount .P)
            (liftE (PChainOperations.importFrom env .C)) .C .P amount
      | s, d =>
          (.error (JsError.plain
            ("Unsupported transfer direction: " ++ s.str ++ "→" ++ d.str)), [])
    (match body.1 with
      | .ok r => .ok r
      | .error e => .error (wrapTransferError source dest e),
      body.2)

/-- Wallet data recovered from a keystore: the C-chain address and the
mnemonic when the wallet was created from one (`HDNodeWallet`), else no
mnemonic (`Wallet` from a raw private key). -/
structure WalletData where
  address : String
  mnemonic : Option String
deriving DecidableEq, Repr

/-- Content of the keystore file: a geth-format encrypted JSON blob, which
binds the wallet data to the encryption password it was produced with, or a
corrupt record that no password decrypts. -/
inductive KeystoreFile
  | encrypted (wallet : WalletData) (password : String)
  | corruptRecord
deriving DecidableEq, Repr

/-- The two files managed by `AgentKeystore` at its configured paths:
`keystorePath` and the sibling entropy file (`none` = file absent). -/
structure Storage where
  keystoreFile : Option KeystoreFile
  entropyFile : Option String
deriving DecidableEq, Repr

/-- The configured paths of an `AgentKeystore` instance
(`src/wallet/keystore.ts`, constructor). -/
structure AgentKeystore where
  keystorePath : String
  entropyPath : String
deriving DecidableEq, Repr

/-- `{ address, keystorePath, isNew }` (`KeystoreInitResult`). -/
structure KeystoreInitResult where
  address : String
  keystorePath : String
  isNew : Bool
deriving DecidableEq, Repr

/-- JavaScript `String.prototype.trim` over the character list: strip leading
and trailing whitespace (executable counterpart of `String.trim`). -/
def jsTrim (s : String) : String :=
  (((s.toList.dropWhile Char.isWhitespace).reverse.dropWhile Char.isWhitespace).reverse).asString

/-- `AgentKeystore.derivePassword`: the entropy is the password material. -/
def AgentKeystore.derivePassword (entropy : String) : String :=
  "evalanche:" ++ entropy

/-- `Wallet.fromEncryptedJson(keystore, password)` (ethers): decrypts the
record when the password matches the one it was encrypted with, otherwise
rejects; a corrupt record always rejects. -/
def Wallet.fromEncryptedJson (keystore : KeystoreFile) (password : String) :
    Except JsError WalletData :=
  match keystore with
  | .encrypted wallet p =>
      if password = p then .ok wallet
      else .error (.plain "incorrect password")
  | .corruptRecord => .error (.plain "invalid JSON wallet")

/-- `AgentKeystore.getPassword` (`src/wallet/keystore.ts`): read the entropy
file, trim it and derive the password; a missing entropy file surfaces as a
`WALLET_ERROR`. -/
def AgentKeystore.getPassword (ks : AgentKeystore) (s : Storage) :
    Except EvalancheError String :=
  match s.entropyFile with
  | some entropy => .ok (AgentKeystore.derivePassword (jsTrim entropy))
  | none =>
      .error ⟨"Entropy file missing at " ++ ks.entropyPath ++ " — keystore cannot be decrypted",
        .WALLET_ERROR, none⟩

/-- `AgentKeystore.load` (`src/wallet/keystore.ts`): read the keystore file
and the derived password, then decrypt; every failure is wrapped in a
`WALLET_ERROR` naming the keystore path, with the underlying error as cause. -/
def AgentKeystore.load (ks : AgentKeystore) (s : Storage) :
    Except EvalancheError WalletData :=
  match (do
      let keystore ← match s.keystoreFile with
        | some f => Except.ok f
        | none =>
            Except.error (JsError.plain
              ("ENOENT: no such file or directory, open " ++ ks.keystorePath))
      let password ← match AgentKeystore.getPassword ks s with
        | .ok p => Except.ok p
        | .error e => Except.error e.toJs
      Wallet.fromEncryptedJson keystore password : Except JsError WalletData) with
  | .ok w => .ok w
  | .error e =>
      .error ⟨"Failed to load keystore from " ++ ks.keystorePath, .WALLET_ERROR, some e⟩

/-- `AgentKeystore.exists`: the keystore file is present. -/
def AgentKeystore.fileExists (s : Storage) : Bool :=
  s.keystoreFile.isSome

/-- `AgentKeystore.save` (`src/wallet/keystore.ts`): write a fresh entropy
file and the wallet encrypted under the password derived from that entropy
(both with owner-only permissions, not modelled). -/
def AgentKeystore.save (wallet : WalletData) (freshEntropy : String) : Storage :=
  { keystoreFile := some (.encrypted wallet (AgentKeystore.derivePassword freshEntropy)),
    entropyFile := some freshEntropy }

/-- `AgentKeystore.init` (`src/wallet/keystore.ts`): load the existing
keystore if one exists (returning `isNew := false` and leaving storage
untouched), else generate a fresh random wallet and entropy (supplied here as
the `freshWallet` / `freshEntropy` oracle inputs), persist them and return
`isNew := true`.  `load`'s `EvalancheError`s are rethrown unchanged by the
catch clause. -/
def AgentKeystore.init (ks : AgentKeystore) (freshWallet : WalletData)
    (freshEntropy : String) (s : Storage) :
    Except EvalancheError KeystoreInitResult × Storage :=
  if AgentKeystore.fileExists s then
    match AgentKeystore.load ks s with
    | .ok wallet => (.ok ⟨wallet.address, ks.keystorePath, false⟩, s)
    | .error e => (.error e, s)
  else
    (.ok ⟨freshWallet.address, ks.keystorePath, true⟩,
      AgentKeystore.save freshWallet freshEntropy)

/-- Numeric value of a digit string (most significant digit first). -/
def digitsToNat (s : List Char) : Nat :=
  s.foldl (fun n c => n * 10 + (c.toNat - 48)) 0

/-- Modelled from the spec's external collaborator ethers v6:
`parseEther(value)` = `parseUnits(value, 18)` on non-negative decimal strings.
The string is split on the decimal point; both parts must be digit strings; a
fraction longer than 18 digits is rejected ("too many decimals"); otherwise
the value in wei is `whole·10^18 + fraction·10^(18-|fraction|)`. -/
def parseEther (value : String) : Except JsError Nat :=
  match (value.toList.splitOn '.').map List.asString with
  | [whole] =>
      if whole = "" ∨ ¬ whole.toList.all Char.isDigit then
        .error (.plain "invalid decimal string")
      else
        .ok (digitsToNat whole.toList * 10 ^ 18)
  | [whole, fraction] =>
      if (whole = "" ∧ fraction = "") ∨ ¬ whole.toList.all Char.isDigit
          ∨ ¬ fraction.toList.all Char.isDigit then
        .error (.plain "invalid decimal string")
      else if 18 < fraction.length then
        .error (.plain "too many decimals")
      else
        .ok (digitsToNat whole.toList * 10 ^ 18
          + digitsToNat fraction.toList * 10 ^ (18 - fraction.length))
  | _ => .error (.plain "invalid decimal string")

/-- The slice of the `Evalanche` agent's state that drives `initMultiVM`:
the stored mnemonic (absent when the agent was constructed from a raw private
key only) and the lazy-init flag. -/
structure AgentState where
  mnemonic : Option String
  multiVMInitialized : Bool
deriving DecidableEq, Repr

/-- Agent-level events: the network context fetch performed when multi-VM
support is initialized, and the orchestrator's own primitives. -/
inductive AgentEvent
  | providerInit
  | chainEvent (e : Event)
deriving DecidableEq, Repr

/-- Environment for the agent layer: the orchestrator environment plus the
outcome of `createAvalancheProvider`. -/
structure AgentEnv where
  crossChainEnv : Env
  createProvider : Except EvalancheError Unit

/-- The error thrown by `Evalanche.initMultiVM` when no mnemonic is stored;
the spec's `MultiLedgerUnavailableError`. -/
def MultiLedgerUnavailableError : EvalancheError :=
  ⟨"Multi-VM requires a mnemonic (not just a private key). Pass mnemonic in EvalancheConfig.",
    .INVALID_CONFIG, none⟩

/-- `Evalanche.initMultiVM`: a no-op when already initialized; fails before
any network activity when no mnemonic is stored; otherwise creates the
Avalanche provider (the first network-touching step, recorded as
`providerInit`), the signer and the chain modules. -/
def Evalanche.initMultiVM (aenv : AgentEnv) (st : AgentState) :
    Except EvalancheError AgentState × List AgentEvent :=
  if st.multiVMInitialized then
    (.ok st, [])
  else
    match st.mnemonic with
    | none => (.error MultiLedgerUnavailableError, [])
    | some _ =>
        match aenv.createProvider with
        | .ok _ => (.ok { st with multiVMInitialized := true }, [.providerInit])
        | .error e => (.error e, [.providerInit])

/-- `Evalanche.transfer` (agent layer): lazily initialize multi-VM support,
convert the human-readable AVAX amount to nAVAX via
`parseEther(amount) / 10^9` (BigInt division, truncating), and delegate to
`CrossChainTransfer.transfer`. -/
def Evalanche.transfer (aenv : AgentEnv) (st : AgentState)
    (source dest : ChainAlias) (amount : String) :
    Except JsError TransferResult × List AgentEvent :=
  match Evalanche.initMultiVM aenv st with
  | (.error e, evs) => (.error e.toJs, evs)
  | (.ok _, evs) =>
      match parseEther amount with
      | .error e => (.error e, evs)
      | .ok wei =>
          let amountNAvax := wei / 1000000000
          let res := CrossChainTransfer.transfer aenv.crossChainEnv source dest amountNAvax
          (liftE res.1, evs ++ res.2.map .chainEvent)

/-- Whether `needle` occurs as a contiguous substring of `hay` — used to make
"the error contains the export transaction identifier" precise. -/
def strContains (hay needle : String) : Bool :=
  hay.toList.tails.any fun t => needle.toList.isPrefixOf t

/-- Whether a thrown error mentions a transaction identifier anywhere in its
message or in the messages of its cause chain. -/
def JsError.mentionsTx : JsError → String → Bool
  | .plain m, t => strContains m t
  | .evalanche m _ none, t => strContains m t
  | .evalanche m _ (some c), t => strContains m t || JsError.mentionsTx c t

/-- Whether a typed `EvalancheError` mentions a transaction identifier in its
message or cause chain. -/
def EvalancheError.mentionsTx (e : EvalancheError) (t : String) : Bool :=
  JsError.mentionsTx e.toJs t

/-- The export primitive `transfer` dispatches to for a given direction:
`xChain.exportTo`, `pChain.exportTo`, or `exportFromC`, as a thrown-error
computation (module errors lifted). -/
def exportPrimitive (env : Env) (source dest : ChainAlias) (amount : Nat) :
    Except JsError String :=
  match source with
  | .X => liftE (XChainOperations.exportTo env amount dest)
  | .P => liftE (PChainOperations.exportTo env amount dest)
  | .C => CrossChainTransfer.exportFromC env amount dest

/-- The import primitive `transfer` dispatches to for a given direction:
`xChain.importFrom`, `pChain.importFrom`, or `importToC`. -/
def importPrimitive (env : Env) (dest source : ChainAlias) :
    Except JsError String :=
  match dest with
  | .X => liftE (XChainOperations.importFrom env source)
  | .P => liftE (PChainOperations.importFrom env source)
  | .C => CrossChainTransfer.importToC env source

theorem transfer_unfold (env : Env) (source dest : ChainAlias) (amount : Nat)
    (h : source ≠ dest) :
    CrossChainTransfer.transfer env source dest amount =
      ((match (legRun (exportPrimitive env source dest amount)
            (importPrimitive env dest source) source dest amount).1 with
        | .ok r => .ok r
        | .error e => .error (wrapTransferError source dest e)),
       (legRun (exportPrimitive env source dest amount)
          (importPrimitive env dest source) source dest amount).2) := by
  cases source <;> cases dest <;> first | exact absurd rfl h | rfl

theorem legRun_trace (E I : Except JsError String) (s d : ChainAlias) (a : Nat) :
    (legRun E I s d a).2 =
      match E with
      | .error _ => [Event.exportCall s d a]
      | .ok _ => [Event.exportCall s d a, Event.wait, Event.importCall d s] := by
  cases E <;> cases I <;> rfl

theorem sumAvaxAmounts_go (utxos : List UTXO) (aid : String) (acc : Nat) :
    List.foldl
      (fun total u =>
        if u.assetId = aid then
          match u.amount with
          | some a => total + a
          | none => total
        else total)
      acc utxos
    = acc + (utxos.filterMap fun u => if u.assetId = aid then u.amount else none).sum := by
  induction utxos generalizing acc with
  | nil => simp
  | cons u us ih =>
      simp only [List.foldl_cons, List.filterMap_cons]
      by_cases hA : u.assetId = aid
      · cases hAm : u.amount with
        | none => simp [hA, hAm, ih]
        | some a =>
            simp only [hA, hAm, if_true, List.sum_cons, ih]
            omega
      · simp [hA, ih]

theorem sumAvaxAmounts_eq (utxos : List UTXO) (aid : String) :
    sumAvaxAmounts utxos aid =
      (utxos.filterMap fun u => if u.assetId = aid then u.amount else none).sum := by
  simpa using sumAvaxAmounts_go utxos aid 0

/-- A sample fully-succeeding environment, used by witnesses. -/
def sampleEnv : Env where
  avaxAssetID := "AVAX"
  getUTXOs := fun _ => .ok [⟨"AVAX", some 100⟩]
  getAtomicUTXOs := fun _ _ => .ok [⟨"AVAX", some 40⟩]
  signTx := fun _ => .ok ()
  issueSignedTx := fun _ => .ok "TXID"
  getNonce := .ok 7
  getFeeData := .ok (some 30)

/-- A sample environment whose transaction submission always rejects, so every
export fails. -/
def sampleFailEnv : Env where
  avaxAssetID := "AVAX"
  getUTXOs := fun _ => .ok [⟨"AVAX", some 100⟩]
  getAtomicUTXOs := fun _ _ => .ok [⟨"AVAX", some 40⟩]
  signTx := fun _ => .ok ()
  issueSignedTx := fun _ => .error (.plain "transaction rejected")
  getNonce := .ok 7
  getFeeData := .ok (some 30)

/-- A sample environment where exports succeed with a recognizable transaction
id but no atomic UTXO ever appears, so every import fails. -/
def cexEnv : Env where
  avaxAssetID := "AVAX"
  getUTXOs := fun _ => .ok [⟨"AVAX", some 100⟩]
  getAtomicUTXOs := fun _ _ => .ok []
  signTx := fun _ => .ok ()
  issueSignedTx := fun _ => .ok "EXPORTTX123"
  getNonce := .ok 0
  getFeeData := .ok (some 25)

/-- A sample agent environment delegating to `sampleEnv`. -/
def sampleAgentEnv : AgentEnv where
  crossChainEnv := sampleEnv
  createProvider := .ok ()

/-- Claim C3: for every pair (from, to) in {C,X,P}×{C,X,P}, if from = to the
orchestrator's transfer rejects the request with the invalid-direction error
before invoking any export primitive (empty trace), and every pair with
from ≠ to is accepted and dispatched to an export/import pair (the trace
begins with the export call for that direction). -/
theorem transfer_direction_completeness (env : Env) (amount : Nat) (source dest : ChainAlias) :
    (source = dest →
      CrossChainTransfer.transfer env source dest amount = (.error InvalidDirectionError, [])) ∧
    (source ≠ dest →
      ∃ rest, (CrossChainTransfer.transfer env source dest amount).2
        = Event.exportCall source dest amount :: rest) := by
  constructor
  · intro h
    subst h
    simp [CrossChainTransfer.transfer]
  · intro h
    rw [transfer_unfold env source dest amount h]
    simp only [legRun_trace]
    cases exportPrimitive env source dest amount with
    | error e => exact ⟨[], rfl⟩
    | ok t => exact ⟨[Event.wait, Event.importCall dest source], rfl⟩

theorem transfer_direction_completeness_witness :
    CrossChainTransfer.transfer sampleEnv .X .X 5 = (.error InvalidDirectionError, []) ∧
    ∃ rest, (CrossChainTransfer.transfer sampleEnv .X .P 5).2
      = Event.exportCall .X .P 5 :: rest :=
  ⟨(transfer_direction_completeness sampleEnv 5 .X .X).1 rfl,
   (transfer_direction_completeness sampleEnv 5 .X .P).2 (by decide)⟩

/-- Claim C4: within a single transfer call the source ledger's export
primitive is invoked before the settling wait, which completes before the
destination ledger's import primitive is invoked; when the export primitive
fails the import primitive is never invoked (the trace stops at the export
call). -/
theorem transfer_export_before_wait_before_import (env : Env) (source dest : ChainAlias)
    (amount : Nat) (h : source ≠ dest) :
    (∀ e, exportPrimitive env source dest amount = .error e →
      (CrossChainTransfer.transfer env source dest amount).2
        = [Event.exportCall source dest amount]) ∧
    (∀ t, exportPrimitive env source dest amount = .ok t →
      (CrossChainTransfer.transfer env source dest amount).2
        = [Event.exportCall source dest amount, Event.wait, Event.importCall dest source]) := by
  rw [transfer_unfold env source dest amount h]
  constructor
  · intro e he
    simp [legRun_trace, he]
  · intro t ht
    simp [legRun_trace, ht]

theorem transfer_export_before_wait_before_import_witness :
    (CrossChainTransfer.transfer sampleFailEnv .X .P 5).2 = [Event.exportCall .X .P 5] ∧
    (CrossChainTransfer.transfer sampleEnv .X .P 5).2
      = [Event.exportCall .X .P 5, Event.wait, Event.importCall .P .X] :=
  ⟨(transfer_export_before_wait_before_import sampleFailEnv .X .P 5 (by decide)).1
      (.evalanche "Failed to export from X-Chain to P" .CROSS_CHAIN_ERROR
        (some (.plain "transaction rejected"))) rfl,
   (transfer_export_before_wait_before_import sampleEnv .X .P 5 (by decide)).2 "TXID" rfl⟩

/-- The error that surfaces from `cexEnv` when an X→P transfer's import stage
finds no atomic UTXOs after a successful export. -/
def cexImportError : EvalancheError :=
  ⟨"Failed to import to P-Chain from X", .CROSS_CHAIN_ERROR,
    some (.plain "No atomic UTXOs available for import")⟩

/-- Claim C1 counterexample: in a concrete X→P transfer whose export succeeds
with transaction id "EXPORTTX123" and whose import then fails, the error
surfaced to the caller has code CROSS_CHAIN_ERROR but does not contain the
export transaction identifier anywhere in its message or cause chain. -/
theorem transfer_loses_export_txid_cex :
    (CrossChainTransfer.transfer cexEnv .X .P 5).1 = .error cexImportError ∧
    cexImportError.code = .CROSS_CHAIN_ERROR ∧
    cexImportError.mentionsTx "EXPORTTX123" = false := by
  refine ⟨rfl, rfl, ?_⟩
  decide

/-- Claim C1 (amended): when the export succeeds and the import then fails,
the error surfaced to the caller is the import-stage failure — rethrown
unchanged when it is a typed EvalancheError, otherwise wrapped in a
CROSS_CHAIN_ERROR naming the direction.  It is a function of the direction
and the import failure alone, so the export transaction identifier already
obtained does not appear in it (unless the import failure itself happened to
mention it). -/
theorem transfer_import_failure_error_amended (env : Env) (source dest : ChainAlias)
    (amount : Nat) (t : String) (e : JsError)
    (hne : source ≠ dest)
    (hexp : exportPrimitive env source dest amount = .ok t)
    (himp : importPrimitive env dest source = .error e) :
    (CrossChainTransfer.transfer env source dest amount).1 =
      .error (wrapTransferError source dest e) := by
  rw [transfer_unfold env source dest amount hne]
  simp [legRun, hexp, himp]

theorem transfer_import_failure_error_amended_witness :
    (CrossChainTransfer.transfer cexEnv .X .P 5).1 =
      .error (wrapTransferError .X .P
        (.evalanche "Failed to import to P-Chain from X" .CROSS_CHAIN_ERROR
          (some (.plain "No atomic UTXOs available for import")))) :=
  transfer_import_failure_error_amended cexEnv .X .P 5 "EXPORTTX123"
    (.evalanche "Failed to import to P-Chain from X" .CROSS_CHAIN_ERROR
      (some (.plain "No atomic UTXOs available for import")))
    (by decide) rfl rfl

/-- Claim C5: an agent holding no mnemonic (constructed from a raw private
key only) fails transfer with the multi-ledger-unavailable error for every
direction, with an empty event trace — no provider initialization and no
export, import or balance primitive is ever invoked. -/
theorem transfer_without_mnemonic_fails_before_network (aenv : AgentEnv) (st : AgentState)
    (source dest : ChainAlias) (amount : String)
    (hm : st.mnemonic = none) (hi : st.multiVMInitialized = false) :
    Evalanche.transfer aenv st source dest amount =
      (.error MultiLedgerUnavailableError.toJs, []) := by
  simp [Evalanche.transfer, Evalanche.initMultiVM, hm, hi]

theorem transfer_without_mnemonic_fails_before_network_witness :
    Evalanche.transfer sampleAgentEnv ⟨none, false⟩ .C .X "1.5" =
      (.error MultiLedgerUnavailableError.toJs, []) :=
  transfer_without_mnemonic_fails_before_network sampleAgentEnv ⟨none, false⟩ .C .X "1.5"
    rfl rfl

theorem exceptOkBind {ε α β : Type} (a : α) (f : α → Except ε β) :
    (Except.ok a : Except ε α) >>= f = f a := rfl

theorem exceptErrorBind {ε α β : Type} (e : ε) (f : α → Except ε β) :
    (Except.error e : Except ε α) >>= f = .error e := rfl

/-- An environment whose fee endpoint resolves but reports no gas price. -/
def feeNoneEnv : Env where
  avaxAssetID := "AVAX"
  getUTXOs := fun _ => .ok [⟨"AVAX", some 100⟩]
  getAtomicUTXOs := fun _ _ => .ok [⟨"AVAX", some 40⟩]
  signTx := fun _ => .ok ()
  issueSignedTx := fun _ => .ok "CTX"
  getNonce := .ok 3
  getFeeData := .ok none

/-- Claim C6: when the EVM fee lookup yields no gas price during a C-chain
export or import, the operation does not fail: it proceeds with the fixed
fallback base fee of 25 Gwei (25000000000 wei) in the transaction it signs
and submits. -/
theorem cchain_fee_fallback (env : Env) (amount : Nat) (dest sourceChain : ChainAlias)
    (n : Nat) (hn : env.getNonce = .ok n) (hf : env.getFeeData = .ok none) :
    (∀ txid, env.signTx (.exportC amount dest n 25000000000) = .ok () →
      env.issueSignedTx (.exportC amount dest n 25000000000) = .ok txid →
      CrossChainTransfer.exportFromC env amount dest = .ok txid) ∧
    (∀ us txid, env.getAtomicUTXOs .C sourceChain = .ok us → us ≠ [] →
      env.signTx (.importC us sourceChain 25000000000) = .ok () →
      env.issueSignedTx (.importC us sourceChain 25000000000) = .ok txid →
      CrossChainTransfer.importToC env sourceChain = .ok txid) := by
  constructor
  · intro txid hs hiss
    simp [CrossChainTransfer.exportFromC, hn, hf, exceptOkBind, Option.getD, hs, hiss]
  · intro us txid ha hne hs hiss
    simp [CrossChainTransfer.importToC, ha, hf, exceptOkBind, Option.getD, hs, hiss,
      List.length_eq_zero, hne]

theorem cchain_fee_fallback_witness :
    CrossChainTransfer.exportFromC feeNoneEnv 9 .X = .ok "CTX" ∧
    CrossChainTransfer.importToC feeNoneEnv .X = .ok "CTX" :=
  ⟨(cchain_fee_fallback feeNoneEnv 9 .X .X 3 rfl rfl).1 "CTX" rfl rfl,
   (cchain_fee_fallback feeNoneEnv 9 .X .X 3 rfl rfl).2 [⟨"AVAX", some 40⟩] "CTX"
      rfl (by decide) rfl rfl⟩

/-- Claim C7: for each UTXO ledger, getBalance returns the sum of the amounts
of exactly those fetched outputs whose asset identifier equals the network's
native asset identifier, and returns 0 (not an error) on an empty output
set. -/
theorem getBalance_sums_native_asset (env : Env) (utxos : List UTXO) :
    (env.getUTXOs .X = .ok utxos →
      XChainOperations.getBalance env =
        .ok ((utxos.filterMap fun u =>
          if u.assetId = env.avaxAssetID then u.amount else none).sum)) ∧
    (env.getUTXOs .P = .ok utxos →
      PChainOperations.getBalance env =
        .ok ((utxos.filterMap fun u =>
          if u.assetId = env.avaxAssetID then u.amount else none).sum)) ∧
    (env.getUTXOs .X = .ok [] → XChainOperations.getBalance env = .ok 0) ∧
    (env.getUTXOs .P = .ok [] → PChainOperations.getBalance env = .ok 0) := by
  refine ⟨?_, ?_, ?_, ?_⟩ <;> intro h <;>
    simp [XChainOperations.getBalance, PChainOperations.getBalance, h, sumAvaxAmounts_eq]

/-- An environment whose UTXO sets are all empty. -/
def emptyUtxoEnv : Env :=
  { sampleEnv with getUTXOs := fun _ => .ok [] }

theorem getBalance_sums_native_asset_witness :
    XChainOperations.getBalance sampleEnv = .ok 100 ∧
    XChainOperations.getBalance emptyUtxoEnv = .ok 0 :=
  ⟨by
      have h := (getBalance_sums_native_asset sampleEnv [⟨"AVAX", some 100⟩]).1 rfl
      simpa using h,
   (getBalance_sums_native_asset emptyUtxoEnv []).2.2.1 rfl⟩

/-- Claim C8: for each UTXO ledger, importFrom fails with the
nothing-to-import error (wrapped as CROSS_CHAIN_ERROR with the "No atomic
UTXOs available for import" cause) when the queried atomic output set is
empty, and otherwise signs and submits an import transaction consuming all
the queried atomic outputs and returns its transaction id. -/
theorem importFrom_consumes_all_atomics (env : Env) (sourceChain : ChainAlias)
    (us : List UTXO) :
    (env.getAtomicUTXOs .X sourceChain = .ok us →
      (us = [] → XChainOperations.importFrom env sourceChain =
        .error ⟨"Failed to import to X-Chain from " ++ sourceChain.str, .CROSS_CHAIN_ERROR,
          some (.plain "No atomic UTXOs available for import")⟩) ∧
      (us ≠ [] → ∀ txid, env.signTx (.importX us sourceChain) = .ok () →
        env.issueSignedTx (.importX us sourceChain) = .ok txid →
        XChainOperations.importFrom env sourceChain = .ok txid)) ∧
    (env.getAtomicUTXOs .P sourceChain = .ok us →
      (us = [] → PChainOperations.importFrom env sourceChain =
        .error ⟨"Failed to import to P-Chain from " ++ sourceChain.str, .CROSS_CHAIN_ERROR,
          some (.plain "No atomic UTXOs available for import")⟩) ∧
      (us ≠ [] → ∀ txid, env.signTx (.importP us sourceChain) = .ok () →
        env.issueSignedTx (.importP us sourceChain) = .ok txid →
        PChainOperations.importFrom env sourceChain = .ok txid)) := by
  refine ⟨fun ha => ⟨?_, ?_⟩, fun ha => ⟨?_, ?_⟩⟩
  · intro h0
    subst h0
    simp [XChainOperations.importFrom, ha, exceptOkBind]
  · intro hne txid hs hiss
    simp [XChainOperations.importFrom, ha, exceptOkBind, List.length_eq_zero, hne, hs, hiss]
  · intro h0
    subst h0
    simp [PChainOperations.importFrom, ha, exceptOkBind]
  · intro hne txid hs hiss
    simp [PChainOperations.importFrom, ha, exceptOkBind, List.length_eq_zero, hne, hs, hiss]

theorem importFrom_consumes_all_atomics_witness :
    XChainOperations.importFrom cexEnv .C =
      .error ⟨"Failed to import to X-Chain from C", .CROSS_CHAIN_ERROR,
        some (.plain "No atomic UTXOs available for import")⟩ ∧
    XChainOperations.importFrom sampleEnv .C = .ok "TXID" :=
  ⟨((importFrom_consumes_all_atomics cexEnv .C []).1 rfl).1 rfl,
   ((importFrom_consumes_all_atomics sampleEnv .C [⟨"AVAX", some 40⟩]).1 rfl).2
      (by decide) "TXID" rfl rfl⟩

/-- A sequence of further `init` calls, each drawing the fresh wallet and
entropy it would use (only used when that call generates a new keystore) from
the supplied list, threading the storage state. -/
def initSeq (ks : AgentKeystore) (freshInputs : List (WalletData × String)) (s : Storage) :
    List (Except EvalancheError KeystoreInitResult) × Storage :=
  match freshInputs with
  | [] => ([], s)
  | (w, e) :: rest =>
      let step := AgentKeystore.init ks w e s
      let restRun := initSeq ks rest step.2
      (step.1 :: restRun.1, restRun.2)

theorem init_on_saved (ks : AgentKeystore) (w1 : WalletData) (e1 : String)
    (htrim : jsTrim e1 = e1) (w : WalletData) (e : String) :
    AgentKeystore.init ks w e (AgentKeystore.save w1 e1) =
      (.ok ⟨w1.address, ks.keystorePath, false⟩, AgentKeystore.save w1 e1) := by
  simp [AgentKeystore.init, AgentKeystore.fileExists, AgentKeystore.save,
    AgentKeystore.load, AgentKeystore.getPassword, htrim, Wallet.fromEncryptedJson,
    exceptOkBind]

/-- Claim C2: calling init against initially empty storage returns isNew=true
with the fresh wallet's address and persists the keystore; every further
sequential init call (any number of them, with arbitrary fresh inputs)
returns isNew=false with that same address and leaves the storage unchanged.
(The entropy written on first boot is a hex string, hence fixed by trim.) -/
theorem init_idempotent_boot (ks : AgentKeystore) (w1 : WalletData) (e1 : String)
    (htrim : jsTrim e1 = e1) :
    AgentKeystore.init ks w1 e1 ⟨none, none⟩ =
      (.ok ⟨w1.address, ks.keystorePath, true⟩, AgentKeystore.save w1 e1) ∧
    ∀ rest : List (WalletData × String),
      (initSeq ks rest (AgentKeystore.save w1 e1)).2 = AgentKeystore.save w1 e1 ∧
      ∀ r ∈ (initSeq ks rest (AgentKeystore.save w1 e1)).1,
        r = .ok ⟨w1.address, ks.keystorePath, false⟩ := by
  constructor
  · simp [AgentKeystore.init, AgentKeystore.fileExists]
  · intro rest
    induction rest with
    | nil => simp [initSeq]
    | cons p rest ih =>
        obtain ⟨w, e⟩ := p
        obtain ⟨ih1, ih2⟩ := ih
        constructor
        · simp [initSeq, init_on_saved ks w1 e1 htrim w e, ih1]
        · intro r hr
          simp only [initSeq, init_on_saved ks w1 e1 htrim w e, List.mem_cons] at hr
          rcases hr with h | h
          · exact h
          · exact ih2 r h

/-- Stand-in keystore paths for witnesses. -/
def sampleKs : AgentKeystore := ⟨"/ks/agent.json", "/ks/.agent.json.entropy"⟩

/-- Stand-in freshly generated wallet for witnesses. -/
def sampleWallet : WalletData := ⟨"0xABC", some "test words"⟩

theorem init_idempotent_boot_witness :
    AgentKeystore.init sampleKs sampleWallet "deadbeef" ⟨none, none⟩ =
      (.ok ⟨"0xABC", "/ks/agent.json", true⟩, AgentKeystore.save sampleWallet "deadbeef") ∧
    (initSeq sampleKs [(⟨"0xDEF", none⟩, "feedface"), (⟨"0x123", none⟩, "cafe")]
        (AgentKeystore.save sampleWallet "deadbeef")).2
      = AgentKeystore.save sampleWallet "deadbeef" ∧
    (initSeq sampleKs [(⟨"0xDEF", none⟩, "feedface"), (⟨"0x123", none⟩, "cafe")]
        (AgentKeystore.save sampleWallet "deadbeef")).1
      = [.ok ⟨"0xABC", "/ks/agent.json", false⟩, .ok ⟨"0xABC", "/ks/agent.json", false⟩] :=
  ⟨(init_idempotent_boot sampleKs sampleWallet "deadbeef" (by decide)).1,
   ((init_idempotent_boot sampleKs sampleWallet "deadbeef" (by decide)).2
      [(⟨"0xDEF", none⟩, "feedface"), (⟨"0x123", none⟩, "cafe")]).1,
   rfl⟩

/-- Claim C9: load fails with the wrapped WALLET_ERROR ("KeyLoadError") when
the entropy file is missing (whether or not the keystore record is present)
or when the encrypted record is corrupt; when both files are intact it
decrypts and returns the stored wallet data (mnemonic when available). -/
theorem load_key_material (ks : AgentKeystore) (s : Storage) :
    (∀ f, s.keystoreFile = some f → s.entropyFile = none →
      AgentKeystore.load ks s =
        .error ⟨"Failed to load keystore from " ++ ks.keystorePath, .WALLET_ERROR,
          some (EvalancheError.toJs ⟨"Entropy file missing at " ++ ks.entropyPath
            ++ " — keystore cannot be decrypted", .WALLET_ERROR, none⟩)⟩) ∧
    (s.keystoreFile = none →
      AgentKeystore.load ks s =
        .error ⟨"Failed to load keystore from " ++ ks.keystorePath, .WALLET_ERROR,
          some (.plain ("ENOENT: no such file or directory, open " ++ ks.keystorePath))⟩) ∧
    (∀ e, s.keystoreFile = some .corruptRecord → s.entropyFile = some e →
      AgentKeystore.load ks s =
        .error ⟨"Failed to load keystore from " ++ ks.keystorePath, .WALLET_ERROR,
          some (.plain "invalid JSON wallet")⟩) ∧
    (∀ w e, s.keystoreFile = some (.encrypted w (AgentKeystore.derivePassword (jsTrim e))) →
      s.entropyFile = some e → AgentKeystore.load ks s = .ok w) := by
  refine ⟨?_, ?_, ?_, ?_⟩
  · intro f hks hent
    simp [AgentKeystore.load, AgentKeystore.getPassword, hks, hent, exceptOkBind,
      exceptErrorBind]
  · intro hks
    simp [AgentKeystore.load, hks, exceptOkBind, exceptErrorBind]
  · intro e hks hent
    simp [AgentKeystore.load, AgentKeystore.getPassword, hks, hent,
      Wallet.fromEncryptedJson, exceptOkBind]
  · intro w e hks hent
    simp [AgentKeystore.load, AgentKeystore.getPassword, hks, hent,
      Wallet.fromEncryptedJson, exceptOkBind]

theorem load_key_material_witness :
    AgentKeystore.load sampleKs ⟨some (.encrypted sampleWallet "pw"), none⟩ =
      .error ⟨"Failed to load keystore from /ks/agent.json", .WALLET_ERROR,
        some (EvalancheError.toJs ⟨"Entropy file missing at /ks/.agent.json.entropy — keystore cannot be decrypted",
          .WALLET_ERROR, none⟩)⟩ ∧
    AgentKeystore.load sampleKs ⟨some .corruptRecord, some "deadbeef"⟩ =
      .error ⟨"Failed to load keystore from /ks/agent.json", .WALLET_ERROR,
        some (.plain "invalid JSON wallet")⟩ ∧
    AgentKeystore.load sampleKs
        ⟨some (.encrypted sampleWallet (AgentKeystore.derivePassword (jsTrim "deadbeef"))),
          some "deadbeef"⟩
      = .ok sampleWallet :=
  ⟨(load_key_material sampleKs ⟨some (.encrypted sampleWallet "pw"), none⟩).1
      (.encrypted sampleWallet "pw") rfl rfl,
   (load_key_material sampleKs ⟨some .corruptRecord, some "deadbeef"⟩).2.2.1
      "deadbeef" rfl rfl,
   (load_key_material sampleKs
      ⟨some (.encrypted sampleWallet (AgentKeystore.derivePassword (jsTrim "deadbeef"))),
        some "deadbeef"⟩).2.2.2 sampleWallet "deadbeef" rfl rfl⟩

/-- Claim C10: for every accepted human-readable AVAX amount string, the
agent-level transfer hands the orchestrator the integer quotient
parseEther(a) / 10^9 in nAVAX — BigInt division, so any fraction finer than
1 nAVAX is truncated downward, never rejected and never rounded up. -/
theorem agent_transfer_truncates_to_navax (aenv : AgentEnv) (st : AgentState)
    (source dest : ChainAlias) (a : String) (wei : Nat)
    (hinit : st.multiVMInitialized = true)
    (hp : parseEther a = .ok wei) :
    Evalanche.transfer aenv st source dest a =
      (liftE (CrossChainTransfer.transfer aenv.crossChainEnv source dest (wei / 10 ^ 9)).1,
        ((CrossChainTransfer.transfer aenv.crossChainEnv source dest (wei / 10 ^ 9)).2).map
          AgentEvent.chainEvent) ∧
    (wei / 10 ^ 9) * 10 ^ 9 ≤ wei ∧ wei < (wei / 10 ^ 9 + 1) * 10 ^ 9 := by
  have hpow : (10 : Nat) ^ 9 = 1000000000 := by norm_num
  refine ⟨?_, ?_, ?_⟩
  · simp [Evalanche.transfer, Evalanche.initMultiVM, hinit, hp, hpow]
  · exact Nat.div_mul_le_self wei (10 ^ 9)
  · rw [hpow]
    omega

theorem agent_transfer_truncates_to_navax_witness :
    parseEther "0.0000000019" = .ok 1900000000 ∧
    (1900000000 : Nat) / 10 ^ 9 = 1 ∧
    Evalanche.transfer sampleAgentEnv ⟨some "test words", true⟩ .X .P "0.0000000019" =
      (liftE (CrossChainTransfer.transfer sampleEnv .X .P (1900000000 / 10 ^ 9)).1,
        ((CrossChainTransfer.transfer sampleEnv .X .P (1900000000 / 10 ^ 9)).2).map
          AgentEvent.chainEvent) ∧
    (1900000000 : Nat) < (1900000000 / 10 ^ 9 + 1) * 10 ^ 9 := by
  have hp : parseEther "0.0000000019" = .ok 1900000000 := by rfl
  have h := agent_transfer_truncates_to_navax sampleAgentEnv ⟨some "test words", true⟩
    .X .P "0.0000000019" 1900000000 rfl hp
  exact ⟨hp, by norm_num, h.1, h.2.2⟩
